import Mathlib

/-!
Verification of the binding generator in `cli/generate_rest.py`.

The script builds one string `res` by sequential concatenation:
a fixed header, a package declaration, an import block produced by a loop
over `imports`, and, for each `(typ, name, _, _)` in `types`, a pair of
documented Go function definitions.  We embed the script as the pure
function `generate` below, mirroring each `+=` of the source in order,
and prove the specification's claims about the produced text.
-/

namespace GenerateRest

/-- One line of the import block: `res += "\t\"%s\"\n" % pkg` (line 11 of the source). -/
def importLine (pkg : String) : String := "\t\"" ++ pkg ++ "\"\n"

/-- The per-descriptor fragment: the body of the `for (typ, name, _, _) in types`
loop (lines 15-44 of the source), one `++` per `res +=` statement, in order. -/
def perType (typ name : String) : String :=
  "\n"
  ++ ("// []" ++ typ ++ "\n")
  ++ "\n"
  ++ ("// Rest" ++ name ++ "sVar defines the []" ++ typ ++ " rest arguments with specified name.\n")
  ++ ("// The argument p points to a []" ++ typ ++ " variable in which to store values of arguments.\n")
  ++ "// The return value will be an error from the register.RegisterRestArgs if it\n"
  ++ "// failed to register the rest arguments.\n"
  ++ "//\n"
  ++ "// A usage may be set by passing a cli.Usage.\n"
  ++ "//\n"
  ++ ("//   _ = cli.Rest" ++ name ++ "sVar(register, &p, \"names\", cli.Usage(\"Names of users\"))\n")
  ++ ("func Rest" ++ name ++ "sVar(register Register, p *[]" ++ typ ++ ", name string, options ...RestOptionApplyer) error \x7b\n")
  ++ ("\treturn RestVar(register, new" ++ name ++ "Values(p), name, options...)\n")
  ++ "\x7d\n"
  ++ "\n"
  ++ ("// Rest" ++ name ++ "s defines the []" ++ typ ++ " rest arguments with specified name.\n")
  ++ ("// The return value is the address of a []" ++ typ ++ " variable that stores values of arguments.\n")
  ++ "//\n"
  ++ "// A usage may be set by passing a cli.Usage.\n"
  ++ "//\n"
  ++ ("//   _ = cli.Rest" ++ name ++ "s(register, \"names\", cli.Usage(\"Names of users\"))\n")
  ++ ("func Rest" ++ name ++ "s(register Register, name string, options ...RestOptionApplyer) *[]" ++ typ ++ " \x7b\n")
  ++ ("\tp := new([]" ++ typ ++ ")\n")
  ++ ("\t_ = Rest" ++ name ++ "sVar(register, p, name, options...)\n")
  ++ "\treturn p\n"
  ++ "\x7d\n"

/-- A catalog entry, as the source's 4-tuple `(typ, name, _, _)`. -/
abbrev Descriptor := String × String × String × String

/-- Shallow embedding of the whole script (lines 5-44): each `let res := ...`
mirrors one `res = ...` / `res += ...` statement of the source, and each
`for` loop becomes a `List.foldl` accumulating into `res`. -/
def generate (types : List Descriptor) (imports : List String) : String :=
  let res := "// Code generated by generate_rest.py; DO NOT EDIT.\n"
  let res := res ++ "\n"
  let res := res ++ "package cli\n"
  let res := res ++ "\n"
  let res := res ++ "import (\n"
  let res := imports.foldl (fun res pkg => res ++ importLine pkg) res
  let res := res ++ ")\n"
  let res := types.foldl
    (fun res t => match t with | (typ, name, _, _) => res ++ perType typ name) res
  res

/-- The per-descriptor fragment as the ordered list of the pieces appended by
the loop body, one list entry per `res +=` statement of lines 15-44. -/
def perTypePieces (typ name : String) : List String :=
  [ "\n"
  , "// []" ++ typ ++ "\n"
  , "\n"
  , "// Rest" ++ name ++ "sVar defines the []" ++ typ ++ " rest arguments with specified name.\n"
  , "// The argument p points to a []" ++ typ ++ " variable in which to store values of arguments.\n"
  , "// The return value will be an error from the register.RegisterRestArgs if it\n"
  , "// failed to register the rest arguments.\n"
  , "//\n"
  , "// A usage may be set by passing a cli.Usage.\n"
  , "//\n"
  , "//   _ = cli.Rest" ++ name ++ "sVar(register, &p, \"names\", cli.Usage(\"Names of users\"))\n"
  , "func Rest" ++ name ++ "sVar(register Register, p *[]" ++ typ ++ ", name string, options ...RestOptionApplyer) error \x7b\n"
  , "\treturn RestVar(register, new" ++ name ++ "Values(p), name, options...)\n"
  , "\x7d\n"
  , "\n"
  , "// Rest" ++ name ++ "s defines the []" ++ typ ++ " rest arguments with specified name.\n"
  , "// The return value is the address of a []" ++ typ ++ " variable that stores values of arguments.\n"
  , "//\n"
  , "// A usage may be set by passing a cli.Usage.\n"
  , "//\n"
  , "//   _ = cli.Rest" ++ name ++ "s(register, \"names\", cli.Usage(\"Names of users\"))\n"
  , "func Rest" ++ name ++ "s(register Register, name string, options ...RestOptionApplyer) *[]" ++ typ ++ " \x7b\n"
  , "\tp := new([]" ++ typ ++ ")\n"
  , "\t_ = Rest" ++ name ++ "sVar(register, p, name, options...)\n"
  , "\treturn p\n"
  , "\x7d\n" ]

/-- The five header pieces appended before the import loop (lines 5-9). -/
def headerPieces : List String :=
  [ "// Code generated by generate_rest.py; DO NOT EDIT.\n"
  , "\n"
  , "package cli\n"
  , "\n"
  , "import (\n" ]

/-- All pieces of the output, in emission order. -/
def pieces (types : List Descriptor) (imports : List String) : List String :=
  headerPieces ++ imports.map importLine ++ [")\n"]
    ++ (types.map (fun t => perTypePieces t.1 t.2.1)).flatten

/-! Basic facts about `String.join`. -/

theorem strJoin_nil : String.join ([] : List String) = "" := rfl

theorem strFoldl_eq : ∀ (l : List String) (a : String),
    l.foldl (fun r s => r ++ s) a = a ++ String.join l
  | [], a => by
      show a = a ++ String.join []
      rw [strJoin_nil, String.append_empty]
  | s :: l, a => by
      show l.foldl (fun r s => r ++ s) (a ++ s) = a ++ String.join (s :: l)
      rw [strFoldl_eq l (a ++ s),
        show String.join (s :: l) = l.foldl (fun r s => r ++ s) ("" ++ s) from rfl,
        strFoldl_eq l ("" ++ s), String.empty_append, String.append_assoc]

theorem strJoin_cons (s : String) (l : List String) :
    String.join (s :: l) = s ++ String.join l := by
  show l.foldl (fun r s => r ++ s) ("" ++ s) = s ++ String.join l
  rw [strFoldl_eq l ("" ++ s), String.empty_append]

theorem strJoin_append : ∀ (l₁ l₂ : List String),
    String.join (l₁ ++ l₂) = String.join l₁ ++ String.join l₂
  | [], l₂ => by
      rw [List.nil_append, strJoin_nil, String.empty_append]
  | s :: l₁, l₂ => by
      rw [List.cons_append, strJoin_cons, strJoin_cons, strJoin_append l₁ l₂,
        String.append_assoc]

theorem strJoin_flatten : ∀ (l : List (List String)),
    String.join l.flatten = String.join (l.map String.join)
  | [] => rfl
  | xs :: l => by
      rw [List.flatten_cons, strJoin_append, List.map_cons, strJoin_cons,
        strJoin_flatten l]

theorem foldl_append_eq (f : α → String) (l : List α) (a : String) :
    l.foldl (fun r x => r ++ f x) a = a ++ String.join (l.map f) := by
  rw [← List.foldl_map, strFoldl_eq]

/-- The fragment is the concatenation of its pieces. -/
theorem perType_eq_join (typ name : String) :
    perType typ name = String.join (perTypePieces typ name) := by
  show perType typ name =
    (perTypePieces typ name).foldl (fun r s => r ++ s) ""
  rfl

/-- Each fragment of the catalog map is the join of its pieces. -/
theorem mapFrag (types : List Descriptor) :
    types.map (String.join ∘ fun t => perTypePieces t.1 t.2.1)
      = types.map (fun t => perType t.1 t.2.1) := by
  apply List.map_congr_left
  intro t ht
  simp only [Function.comp]
  rw [perType_eq_join]

/-- Master structural lemma: the output is exactly the concatenation of the
pieces, in emission order. -/
theorem generate_eq_join (types : List Descriptor) (imports : List String) :
    generate types imports = String.join (pieces types imports) := by
  show (types.foldl
      (fun res t => match t with | (typ, name, _, _) => res ++ perType typ name)
      ((imports.foldl (fun res pkg => res ++ importLine pkg)
        ("// Code generated by generate_rest.py; DO NOT EDIT.\n" ++ "\n"
          ++ "package cli\n" ++ "\n" ++ "import (\n")) ++ ")\n"))
    = String.join (pieces types imports)
  have hmatch : (fun (res : String) (t : Descriptor) =>
      match t with | (typ, name, _, _) => res ++ perType typ name)
      = fun (res : String) (t : Descriptor) => res ++ perType t.1 t.2.1 := rfl
  rw [hmatch, foldl_append_eq, foldl_append_eq]
  simp only [pieces, strJoin_append, strJoin_flatten, List.map_map]
  rw [mapFrag]
  simp only [headerPieces, strJoin_cons, strJoin_nil, String.append_empty,
    String.append_assoc]

/-- The output decomposed into header, package line, import block and the
catalog's fragments, in emission order. -/
theorem generate_decomp (types : List Descriptor) (imports : List String) :
    generate types imports
      = "// Code generated by generate_rest.py; DO NOT EDIT.\n"
        ++ ("\n" ++ ("package cli\n" ++ ("\n" ++ ("import (\n"
        ++ (String.join (imports.map importLine)
        ++ (")\n" ++ String.join (types.map (fun t => perType t.1 t.2.1)))))))) := by
  rw [generate_eq_join]
  simp only [pieces, strJoin_append, strJoin_flatten, List.map_map]
  rw [mapFrag]
  simp only [headerPieces, strJoin_cons, strJoin_nil, String.append_empty,
    String.append_assoc]

/-! Function-definition counting.  A piece of the output opens a Go function
definition exactly when it starts with the keyword `func` followed by a
space; every other emitted piece starts with a comment marker, a tab, a
newline, a closing brace or a closing parenthesis. -/

def funcKeyword : List Char := ['f', 'u', 'n', 'c', ' ']

def isFuncPiece (s : String) : Bool := funcKeyword.isPrefixOf s.data

theorem countP_perTypePieces (typ name : String) :
    (perTypePieces typ name).countP isFuncPiece = 2 := rfl

theorem isFuncPiece_importLine (p : String) :
    isFuncPiece (importLine p) = false := rfl

theorem countP_headerPieces : headerPieces.countP isFuncPiece = 0 := rfl

theorem countP_closeParen : ([")\n"] : List String).countP isFuncPiece = 0 := rfl

theorem countP_importLines : ∀ imports : List String,
    (imports.map importLine).countP isFuncPiece = 0
  | [] => rfl
  | p :: l => by
      rw [List.map_cons, List.countP_cons, countP_importLines l,
        isFuncPiece_importLine]
      rfl

theorem countP_fragments : ∀ types : List Descriptor,
    ((types.map (fun t => perTypePieces t.1 t.2.1)).flatten).countP isFuncPiece
      = 2 * types.length
  | [] => rfl
  | t :: l => by
      rw [List.map_cons, List.flatten_cons, List.countP_append,
        countP_perTypePieces, countP_fragments l, List.length_cons]
      ring

/-! Substring-occurrence counting, used for the naming-derivation claim. -/

/-- Number of positions of s at which pat occurs (as a character list). -/
def countOcc (pat : List Char) : List Char → Nat
  | [] => 0
  | c :: rest => (if pat.isPrefixOf (c :: rest) then 1 else 0) + countOcc pat rest

/-- Number of occurrences of pat as a substring of s. -/
def countOccStr (pat s : String) : Nat := countOcc pat.data s.data

/-- Import lines determine their package path: the emitted wrapping is
injective, so distinct paths give distinct lines. -/
theorem importLine_injective : Function.Injective importLine := by
  intro p q h
  have hd := congrArg String.data h
  simp only [importLine, String.data_append] at hd
  exact String.ext (List.append_cancel_left (List.append_cancel_right hd))

/-- Changing only the third and fourth component of every catalog entry
leaves the fragment pieces unchanged. -/
theorem map_of_proj_eq : ∀ (types types' : List Descriptor),
    types.map (fun t => (t.1, t.2.1)) = types'.map (fun t => (t.1, t.2.1)) →
    types.map (fun t => perTypePieces t.1 t.2.1)
      = types'.map (fun t => perTypePieces t.1 t.2.1)
  | [], [], _ => rfl
  | [], _ :: _, h => by simp at h
  | _ :: _, [], h => by simp at h
  | t :: l, u :: m, h => by
      simp only [List.map_cons, List.cons.injEq, Prod.mk.injEq] at h
      obtain ⟨⟨h1, h2⟩, h3⟩ := h
      simp only [List.map_cons, h1, h2, map_of_proj_eq l m h3]

/-! Named segments of the per-descriptor fragment (from lines 15-44 of the
source): the two documentation blocks and the two function definitions. -/

/-- Documentation block preceding the error-visible function (lines 16-25). -/
def restVarDocText (typ name : String) : String :=
  "\n"
  ++ ("// []" ++ typ ++ "\n")
  ++ "\n"
  ++ ("// Rest" ++ name ++ "sVar defines the []" ++ typ ++ " rest arguments with specified name.\n")
  ++ ("// The argument p points to a []" ++ typ ++ " variable in which to store values of arguments.\n")
  ++ "// The return value will be an error from the register.RegisterRestArgs if it\n"
  ++ "// failed to register the rest arguments.\n"
  ++ "//\n"
  ++ "// A usage may be set by passing a cli.Usage.\n"
  ++ "//\n"
  ++ ("//   _ = cli.Rest" ++ name ++ "sVar(register, &p, \"names\", cli.Usage(\"Names of users\"))\n")

/-- The error-visible function (lines 28-30): its body builds the adapter
new<N>Values(p) and returns the result of the generic RestVar call directly. -/
def restVarFuncText (typ name : String) : String :=
  ("func Rest" ++ name ++ "sVar(register Register, p *[]" ++ typ ++ ", name string, options ...RestOptionApplyer) error \x7b\n")
  ++ ("\treturn RestVar(register, new" ++ name ++ "Values(p), name, options...)\n")
  ++ "\x7d\n"

/-- Documentation block preceding the convenience function (lines 32-37). -/
def restDocText (typ name : String) : String :=
  ("// Rest" ++ name ++ "s defines the []" ++ typ ++ " rest arguments with specified name.\n")
  ++ ("// The return value is the address of a []" ++ typ ++ " variable that stores values of arguments.\n")
  ++ "//\n"
  ++ "// A usage may be set by passing a cli.Usage.\n"
  ++ "//\n"
  ++ ("//   _ = cli.Rest" ++ name ++ "s(register, \"names\", cli.Usage(\"Names of users\"))\n")

/-- The convenience function (lines 40-44): it allocates a fresh slice,
registers it through Rest<N>sVar discarding the error, and returns the
address of the allocation. -/
def restFuncText (typ name : String) : String :=
  ("func Rest" ++ name ++ "s(register Register, name string, options ...RestOptionApplyer) *[]" ++ typ ++ " \x7b\n")
  ++ ("\tp := new([]" ++ typ ++ ")\n")
  ++ ("\t_ = Rest" ++ name ++ "sVar(register, p, name, options...)\n")
  ++ "\treturn p\n"
  ++ "\x7d\n"

/-! The claims. -/

/-- C1: generate is deterministic.  The script reads no state besides its two
inputs, so its shallow embedding is a pure function and two invocations on
the same catalog and import list return byte-identical text. -/
theorem generate_deterministic (types : List Descriptor) (imports : List String) :
    generate types imports = generate types imports := rfl

/-- C2: for every descriptor the fragment consists of a documentation block,
the function Rest<N>sVar whose body delegates to the generic RestVar
primitive with the adapter new<N>Values(p), the name and the forwarded
options and returns exactly that result, a blank line, a second
documentation block, and the function Rest<N>s which allocates a new
sequence-of-T, calls Rest<N>sVar on its address discarding the result, and
returns that address. -/
theorem perType_function_shapes (typ name : String) :
    perType typ name
      = restVarDocText typ name ++ (restVarFuncText typ name
        ++ ("\n" ++ (restDocText typ name ++ restFuncText typ name))) := by
  simp only [perType, restVarDocText, restVarFuncText, restDocText,
    restFuncText, String.append_assoc]

/-- C3: the output is the concatenation of its pieces, exactly 2 times the
number of catalog entries of which open a function definition; for the
empty catalog the output is only the header, package declaration and the
block of imports. -/
theorem generate_function_count (types : List Descriptor) (imports : List String) :
    generate types imports = String.join (pieces types imports)
      ∧ (pieces types imports).countP isFuncPiece = 2 * types.length
      ∧ generate [] imports
          = String.join (headerPieces ++ imports.map importLine ++ [")\n"]) := by
  refine ⟨generate_eq_join types imports, ?_, ?_⟩
  · simp only [pieces, List.countP_append, countP_importLines, countP_fragments,
      countP_headerPieces, countP_closeParen]
    omega
  · rw [generate_eq_join]
    apply congrArg
    simp [pieces]

/-- C4: the output is the pieces of the header followed by one import line
per entry of the import list, in input order, and each entry produces its
line exactly as many times as it occurs in the input: no deduplication. -/
theorem generate_import_multiplicity (types : List Descriptor)
    (imports : List String) (e : String) :
    generate types imports
      = String.join (headerPieces ++ imports.map importLine
          ++ [")\n"] ++ (types.map (fun t => perTypePieces t.1 t.2.1)).flatten)
      ∧ (imports.map importLine).count (importLine e) = imports.count e :=
  ⟨generate_eq_join types imports,
    imports.count_map_of_injective importLine importLine_injective e⟩

/-- C5: for every non-empty catalog the per-descriptor fragments appear in
the output after the header and import block in exactly the catalog's
input order, with no reordering, filtering or merging. -/
theorem generate_order_preserved (types : List Descriptor)
    (imports : List String) (h : types ≠ []) :
    generate types imports
      = "// Code generated by generate_rest.py; DO NOT EDIT.\n"
        ++ ("\n" ++ ("package cli\n" ++ ("\n" ++ ("import (\n"
        ++ (String.join (imports.map importLine)
        ++ (")\n" ++ String.join (types.map (fun t => perType t.1 t.2.1)))))))) :=
  generate_decomp types imports

/-- Witness for C5 at a concrete one-entry catalog. -/
theorem generate_order_preserved_witness :
    ([(("int" : String), ("Int" : String), ("" : String), ("" : String))]
        ≠ ([] : List Descriptor))
      ∧ generate [("int", "Int", "", "")] ["pkgA"]
        = "// Code generated by generate_rest.py; DO NOT EDIT.\n"
          ++ ("\n" ++ ("package cli\n" ++ ("\n" ++ ("import (\n"
          ++ (String.join (["pkgA"].map importLine)
          ++ (")\n" ++ String.join (([("int", "Int", "", "")] : List Descriptor).map
                (fun t => perType t.1 t.2.1)))))))) :=
  ⟨by decide, generate_order_preserved _ _ (by decide)⟩

/-- C6: for every input the output starts with the fixed do-not-edit marker
line, a blank line, and the fixed package declaration line, before the
opener of the block of imports. -/
theorem generate_header (types : List Descriptor) (imports : List String) :
    ∃ t, generate types imports
      = "// Code generated by generate_rest.py; DO NOT EDIT.\n"
        ++ ("\n" ++ ("package cli\n" ++ ("\n" ++ ("import (\n" ++ t)))) :=
  ⟨String.join (imports.map importLine)
      ++ (")\n" ++ String.join (types.map (fun t => perType t.1 t.2.1))),
    generate_decomp types imports⟩

set_option maxRecDepth 100000 in
set_option maxHeartbeats 4000000 in
/-- C7 counterexample: for the one-descriptor catalog with nameSuffix Int the
names RestIntsVar and RestInts do not occur exactly once each in the
output: RestIntsVar occurs 4 times (doc comment, usage example, function
declaration and the delegation call) and RestInts occurs 7 times. -/
theorem restInts_once_counterexample :
    ¬ (countOccStr "RestIntsVar" (generate [("int", "Int", "", "")] []) = 1
        ∧ countOccStr "RestInts" (generate [("int", "Int", "", "")] []) = 1) := by
  decide

set_option maxRecDepth 100000 in
set_option maxHeartbeats 4000000 in
/-- C7 amended: the function declarations func RestIntsVar( and
func RestInts( each occur exactly once in the output; the bare names occur
4 and 7 times, the extra occurrences being in documentation comments,
usage examples and the delegation call of the convenience function. -/
theorem restInts_decl_once :
    countOccStr "func RestIntsVar(" (generate [("int", "Int", "", "")] []) = 1
      ∧ countOccStr "func RestInts(" (generate [("int", "Int", "", "")] []) = 1
      ∧ countOccStr "RestIntsVar" (generate [("int", "Int", "", "")] []) = 4
      ∧ countOccStr "RestInts" (generate [("int", "Int", "", "")] []) = 7 := by
  decide

/-- C8: the output depends only on the first two components of each catalog
entry: two catalogs agreeing on elementType and nameSuffix of every entry
produce identical text for every import list. -/
theorem generate_ignores_extra_fields (types types' : List Descriptor)
    (imports : List String)
    (h : types.map (fun t => (t.1, t.2.1)) = types'.map (fun t => (t.1, t.2.1))) :
    generate types imports = generate types' imports := by
  rw [generate_eq_join, generate_eq_join]
  unfold pieces
  rw [map_of_proj_eq types types' h]

/-- Witness for C8: catalogs differing only in the ignored components. -/
theorem generate_ignores_extra_fields_witness :
    (([(("int" : String), ("Int" : String), ("a" : String), ("b" : String))] : List Descriptor).map
        (fun t => (t.1, t.2.1))
      = ([(("int" : String), ("Int" : String), ("c" : String), ("d" : String))] : List Descriptor).map
        (fun t => (t.1, t.2.1)))
      ∧ generate [("int", "Int", "a", "b")] [] = generate [("int", "Int", "c", "d")] [] :=
  ⟨by decide, generate_ignores_extra_fields _ _ _ (by decide)⟩

/-- C9: for the empty import list the output still contains the opening
delimiter line of the block of imports immediately followed by the closing
one, with no path lines between them. -/
theorem generate_empty_imports_block (types : List Descriptor) :
    ∃ t, generate types []
      = "// Code generated by generate_rest.py; DO NOT EDIT.\n"
        ++ ("\n" ++ ("package cli\n" ++ ("\n" ++ ("import (\n" ++ (")\n" ++ t))))) := by
  refine ⟨String.join (types.map (fun t => perType t.1 t.2.1)), ?_⟩
  rw [generate_decomp]
  simp only [List.map_nil, strJoin_nil, String.empty_append]

/-- C10: every entry of the import list appears in the output verbatim as a
line made of a tab, a double quote, the unchanged path, a double quote and
a newline; no character of the path is escaped or transformed. -/
theorem generate_import_verbatim (types : List Descriptor)
    (imports : List String) (p : String) (hp : p ∈ imports) :
    ∃ pre post, generate types imports
      = pre ++ (("\t\"" ++ p ++ "\"\n") ++ post) := by
  obtain ⟨s, t, rfl⟩ := List.append_of_mem hp
  refine ⟨"// Code generated by generate_rest.py; DO NOT EDIT.\n"
      ++ ("\n" ++ ("package cli\n" ++ ("\n" ++ ("import (\n"
      ++ String.join (s.map importLine))))),
    String.join (t.map importLine)
      ++ (")\n" ++ String.join (types.map (fun u => perType u.1 u.2.1))), ?_⟩
  rw [generate_decomp]
  simp only [List.map_append, List.map_cons, strJoin_append, strJoin_cons,
    importLine, String.append_assoc]

/-- Witness for C10 at a path containing an unescaped double quote. -/
theorem generate_import_verbatim_witness :
    (("a\"b" : String) ∈ (["a\"b"] : List String))
      ∧ ∃ pre post, generate [] ["a\"b"]
          = pre ++ (("\t\"" ++ "a\"b" ++ "\"\n") ++ post) :=
  ⟨by decide, generate_import_verbatim [] ["a\"b"] "a\"b" (by decide)⟩

end GenerateRest
